import Mathlib

/-!
# Verification of the vehicle-security Bluetooth client

Shallow embedding of the Bluetooth service layer of the
`umg-security-vehicle` repository (device matching, connect/retry,
heartbeat, command send, disconnect, state broadcasting, and the
hand-rolled base64 helper), with theorems settling the frozen claims
about it.

Sources embedded:
 - `src/services/BluetoothService.ts` (BLE variant: `stringToBase64`,
   `filterVehicleDevices`, `connectToDevice`, `sendCommand`,
   `startHeartbeat`, `disconnect`)
 - `src/services/HC06BluetoothService.native.ts` (classic-serial variant:
   `connectToCommandReceiver`, `sendSerialCommand`, `disconnect`,
   `onConnectionChange`, `notifyConnectionChange`)
 - `src/unnamed/part_009` (stub variant: `identifyVehicleDevice`)
 - `src/README.md` (documented response classification of `sendCommand`)
-/

/-! ## The hand-rolled base64 helper (`stringToBase64`, BluetoothService.ts 25-44)

JavaScript strings are modelled as lists of character codes (`List Nat`).
The JS expression `i < str.length ? str.charCodeAt(i++) : 0` advances `i`
only when the bound check succeeds, and the padding conditions
`i - 2 < str.length` / `i - 1 < str.length` read the index afterwards;
both are reproduced exactly.  Bit operations on non-negative numbers are
expressed arithmetically: `x >> k` is `x / 2^k`, `x & 63` is `x % 64`,
and `(a << 16) | (b << 8) | c` is `a * 65536 + b * 256 + c` (the operands
occupy disjoint bit ranges). -/

/-- The 65-character table of the source (note the trailing `=` at index 64,
which is never reached because every index is masked with `& 63`). -/
def b64chars : String :=
  "ABCDEFGHIJKLMNOPQRSTUVWXYZabcdefghijklmnopqrstuvwxyz0123456789+/="

/-- JS `s.charAt(n)`: the one-character string at index `n`. -/
def charAt (s : String) (n : Nat) : String :=
  String.singleton (s.data.getD n 'A')

/-- One pass of the `while` loop of `stringToBase64`.  The second argument
is the tail of character codes not yet consumed (`str` from index `i` on),
the third is the running index `i`; `len` is `str.length`.  In the
one-code and two-code cases the guarded `i++` of the source does not run
for the missing `b`/`c` reads, so `i` advances by 1 resp. 2 only. -/
def b64go (len : Nat) : List Nat → Nat → String
  | [], _ => ""
  | [a], i =>
    let bitmap := a * 65536
    charAt b64chars (bitmap / 262144 % 64)
      ++ charAt b64chars (bitmap / 4096 % 64)
      ++ (if i + 1 - 2 < len then charAt b64chars (bitmap / 64 % 64) else "=")
      ++ (if i + 1 - 1 < len then charAt b64chars (bitmap % 64) else "=")
  | [a, b], i =>
    let bitmap := a * 65536 + b * 256
    charAt b64chars (bitmap / 262144 % 64)
      ++ charAt b64chars (bitmap / 4096 % 64)
      ++ (if i + 2 - 2 < len then charAt b64chars (bitmap / 64 % 64) else "=")
      ++ (if i + 2 - 1 < len then charAt b64chars (bitmap % 64) else "=")
  | a :: b :: c :: rest, i =>
    let bitmap := a * 65536 + b * 256 + c
    charAt b64chars (bitmap / 262144 % 64)
      ++ charAt b64chars (bitmap / 4096 % 64)
      ++ (if i + 3 - 2 < len then charAt b64chars (bitmap / 64 % 64) else "=")
      ++ (if i + 3 - 1 < len then charAt b64chars (bitmap % 64) else "=")
      ++ b64go len rest (i + 3)

/-- `stringToBase64` of BluetoothService.ts, on a list of character codes. -/
def stringToBase64 (codes : List Nat) : String :=
  b64go codes.length codes 0

/-- Character codes of a Lean string (JS `charCodeAt` for ASCII text). -/
def strCodes (s : String) : List Nat :=
  s.data.map Char.toNat

/-- Standard base64 (RFC 4648): three input bytes become four alphabet
characters; a trailing group of two bytes becomes three characters and
one `=`; a trailing single byte becomes two characters and `==`. -/
def base64Spec : List Nat → String
  | [] => ""
  | [a] =>
    charAt b64chars (a / 4) ++ charAt b64chars (a % 4 * 16) ++ "=="
  | [a, b] =>
    charAt b64chars (a / 4) ++ charAt b64chars (a % 4 * 16 + b / 16)
      ++ charAt b64chars (b % 16 * 4) ++ "="
  | a :: b :: c :: rest =>
    charAt b64chars (a / 4) ++ charAt b64chars (a % 4 * 16 + b / 16)
      ++ charAt b64chars (b % 16 * 4 + c / 64) ++ charAt b64chars (c % 64)
      ++ base64Spec rest

/-! ## Device matching

`filterVehicleDevices` (BluetoothService.ts 214-222) filters scan results
by the configured name patterns and sorts by signal strength descending
(JS `(b.rssi || -100) - (a.rssi || -100)`; `Array.prototype.sort` is
stable).  `identifyVehicleDevice` (part_009 83-105) walks the pattern
list in order and takes the first device found for the first pattern
having one; with no pattern match it falls back to the unique
strong-signal device (`d.rssi && d.rssi > -60`) when exactly one exists. -/

/-- A discovered device as the matchers see it: `name` may be absent
(and the JS code also treats an empty name as absent, `!device.name`),
`rssi` may be absent. -/
structure BTDevice where
  name : Option String
  rssi : Option Int
deriving DecidableEq, Repr

/-- `VEHICLE_DEVICE_PATTERNS` (identical in both variants). -/
def VEHICLE_DEVICE_PATTERNS : List String :=
  ["VehicleControl", "HC-05", "HC-06", "ESP32", "Arduino"]

/-- JS `s.toLowerCase()` for the ASCII names used here. -/
def jsToLower (s : String) : String :=
  ⟨s.data.map Char.toLower⟩

/-- Whether `pat` occurs at the very front of `l`. -/
def leadMatch : List Char → List Char → Bool
  | _, [] => true
  | [], _ :: _ => false
  | a :: as, b :: bs => a = b && leadMatch as bs

/-- Whether `pat` occurs contiguously anywhere in `l`. -/
def hasSub : List Char → List Char → Bool
  | l, pat =>
    if leadMatch l pat then true
    else
      match l with
      | [] => false
      | _ :: t => hasSub t pat

/-- JS `s.includes(sub)`: substring containment. -/
def strIncludes (s sub : String) : Bool :=
  hasSub s.data sub.data

/-- `d.name && d.name.toLowerCase().includes(pattern.toLowerCase())`
(an absent or empty name is falsy and matches nothing). -/
def nameMatches (d : BTDevice) (pat : String) : Bool :=
  match d.name with
  | none => false
  | some n => !n.isEmpty && strIncludes (jsToLower n) (jsToLower pat)

/-- Whether a device matches any configured pattern
(`VEHICLE_DEVICE_PATTERNS.some(...)` in both variants). -/
def matchesAnyPattern (d : BTDevice) : Bool :=
  VEHICLE_DEVICE_PATTERNS.any (fun pat => nameMatches d pat)

/-- Sort key of `filterVehicleDevices`: JS `device.rssi || -100`
(an absent rssi — and also a zero rssi, which is falsy — becomes -100). -/
def rssiKey (d : BTDevice) : Int :=
  match d.rssi with
  | none => -100
  | some r => if r = 0 then -100 else r

/-- Stable insertion into a descending-by-`rssiKey` list: the new element
goes in front of the first element it is not weaker than, as JS's stable
`sort((a, b) => keyB - keyA)` orders equal keys by original position. -/
def insertDesc (x : BTDevice) : List BTDevice → List BTDevice
  | [] => [x]
  | y :: ys =>
    if rssiKey y ≤ rssiKey x then x :: y :: ys else y :: insertDesc x ys

/-- Stable sort by `rssiKey` descending. -/
def sortDesc : List BTDevice → List BTDevice
  | [] => []
  | x :: xs => insertDesc x (sortDesc xs)

/-- `filterVehicleDevices` of BluetoothService.ts. -/
def filterVehicleDevices (devices : List BTDevice) : List BTDevice :=
  sortDesc (devices.filter matchesAnyPattern)

/-- The device `autoConnect` (BluetoothService.ts 187-209) picks: the head
of the filtered, signal-sorted list (`vehicleDevices[0]`), or none when
the list is empty. -/
def autoConnectSelection (devices : List BTDevice) : Option BTDevice :=
  (filterVehicleDevices devices).head?

/-- The `for (const pattern of ...) { devices.find(...) }` loop of
`identifyVehicleDevice`: first device matching the first pattern that has
a match. -/
def firstPatternMatch : List String → List BTDevice → Option BTDevice
  | [], _ => none
  | pat :: pats, devices =>
    match devices.find? (fun d => nameMatches d pat) with
    | some d => some d
    | none => firstPatternMatch pats devices

/-- `d.rssi && d.rssi > -60` (rssi present, non-zero, above -60). -/
def strongSignal (d : BTDevice) : Bool :=
  match d.rssi with
  | none => false
  | some r => !(r = 0 : Bool) && decide (r > -60)

/-- `identifyVehicleDevice` of part_009: pattern loop first, then the
unique-strong-signal fallback. -/
def identifyVehicleDevice (devices : List BTDevice) : Option BTDevice :=
  match firstPatternMatch VEHICLE_DEVICE_PATTERNS devices with
  | some d => some d
  | none =>
    let strongSignalDevices := devices.filter strongSignal
    if strongSignalDevices.length = 1 then strongSignalDevices.head?
    else none

/-! ## BLE service state (`BluetoothServiceClass`, BluetoothService.ts)

The mutable fields relevant to the claims are `isConnected`,
`connectedDevice` (kept as the device id), `heartbeatInterval` (kept as a
Boolean: timer armed or not) and `scanSubscription` (likewise).  Calls to
the platform adapter are recorded as an action trace so that theorems can
speak about what was (not) written, read, validated or persisted. -/

structure BLEState where
  isConnected : Bool
  connectedDevice : Option String
  heartbeatOn : Bool
  scanSubOn : Bool
deriving DecidableEq, Repr

/-- Adapter-level actions the BLE service can perform.  `validatePing` is
the identification round-trip that `validateArduinoDevice` (part_009
229-249) would perform, and `persistRemembered` the persistence of a
remembered device identifier; both are in the vocabulary so theorems can
state whether the connect path ever performs them. -/
inductive BLEAct where
  | stopHeartbeatTimer
  | cancelConnection
  | stopScan
  | adapterConnect
  | discoverServices
  | registerDisconnectHandler
  | startHeartbeatTimer
  | writeChar (payload : String)
  | readChar
  | validatePing
  | persistRemembered (id : String)
deriving DecidableEq, Repr

/-- The all-idle service state (fresh instance / after full teardown). -/
def bleIdle : BLEState :=
  { isConnected := false, connectedDevice := none
    heartbeatOn := false, scanSubOn := false }

/-- `stopHeartbeat` (360-366): clears the interval only if one is set. -/
def stopHeartbeat (s : BLEState) : BLEState × List BLEAct :=
  if s.heartbeatOn then
    ({ s with heartbeatOn := false }, [BLEAct.stopHeartbeatTimer])
  else (s, [])

/-- `disconnect` (371-389).  `cancelThrows` is whether the adapter's
`cancelConnection()` rejects: if it does, the `catch` swallows the error,
the scan-subscription block of the `try` is skipped, and only the
`finally` block (clearing `isConnected` and `connectedDevice`) runs. -/
def bleDisconnect (s : BLEState) (cancelThrows : Bool) : BLEState × List BLEAct :=
  let (s1, a1) := stopHeartbeat s
  match s1.connectedDevice with
  | some _ =>
    if cancelThrows then
      ({ s1 with isConnected := false, connectedDevice := none },
        a1 ++ [BLEAct.cancelConnection])
    else
      let (s2, a2) :=
        if s1.scanSubOn then
          ({ s1 with scanSubOn := false }, [BLEAct.stopScan])
        else (s1, [])
      ({ s2 with isConnected := false, connectedDevice := none },
        a1 ++ [BLEAct.cancelConnection] ++ a2)
  | none =>
    let (s2, a2) :=
      if s1.scanSubOn then
        ({ s1 with scanSubOn := false }, [BLEAct.stopScan])
      else (s1, [])
    ({ s2 with isConnected := false, connectedDevice := none }, a1 ++ a2)

/-- `connectToDevice` (135-182).  Returns the new state, the adapter
actions performed, and the Boolean result.  `connectOk` is whether the
raced `device.connect()` wins against the 10 s timeout, `discoverOk`
whether service discovery succeeds; on either failure the `catch` clears
the connection fields and returns `false`. -/
def connectToDevice (s : BLEState) (devId : String)
    (cancelThrows connectOk discoverOk : Bool) :
    BLEState × List BLEAct × Bool :=
  if s.connectedDevice = some devId ∧ s.isConnected then (s, [], true)
  else
    let (s1, a1) := bleDisconnect s cancelThrows
    if connectOk then
      if discoverOk then
        ({ s1 with isConnected := true, connectedDevice := some devId
                   heartbeatOn := true },
          a1 ++ [BLEAct.adapterConnect, BLEAct.discoverServices,
                 BLEAct.registerDisconnectHandler, BLEAct.startHeartbeatTimer],
          true)
      else
        ({ s1 with isConnected := false, connectedDevice := none },
          a1 ++ [BLEAct.adapterConnect, BLEAct.discoverServices], false)
    else
      ({ s1 with isConnected := false, connectedDevice := none },
        a1 ++ [BLEAct.adapterConnect], false)

/-- `validateArduinoDevice` (part_009 229-249): the stub resolves `true`
after its simulated delay; modelled together with the identification
round-trip it stands for. -/
def validateArduinoDevice : Bool × List BLEAct :=
  (true, [BLEAct.validatePing])

/-- The three command literals (`commandMap`, BluetoothService.ts 233-237). -/
inductive VehicleCommand where
  | lock
  | unlock
  | status
deriving DecidableEq, Repr

def commandString : VehicleCommand → String
  | VehicleCommand.lock => "LOCK"
  | VehicleCommand.unlock => "UNLOCK"
  | VehicleCommand.status => "STATUS"

/-- Environment of one `sendCommand` call: whether the characteristic
write succeeds, and the line the device would answer with (available on
the wire whether or not the service reads it). -/
structure BLEEnv where
  writeOk : Bool
  responseLine : String
deriving DecidableEq, Repr

/-- `sendCommand` (227-259): throws `'No hay conexión Bluetooth'` unless
connected, otherwise base64-encodes the command literal and writes it to
the RX characteristic; a write failure is caught and turned into `false`.
No read of the TX characteristic occurs anywhere in the function, so the
result never depends on `env.responseLine`. -/
def sendCommandBLE (s : BLEState) (cmd : VehicleCommand) (env : BLEEnv) :
    Except String Bool × List BLEAct :=
  if s.isConnected = false ∨ s.connectedDevice = none then
    (Except.error "No hay conexión Bluetooth", [])
  else
    let payload := stringToBase64 (strCodes (commandString cmd))
    if env.writeOk then (Except.ok true, [BLEAct.writeChar payload])
    else (Except.ok false, [BLEAct.writeChar payload])

/-- `HEARTBEAT_INTERVAL` (line 62). -/
def HEARTBEAT_INTERVAL : Nat := 15000

/-- What one heartbeat tick observes from the adapter:
`devDisconnected` — `connectedDevice.isConnected()` resolves `false`;
`devCheckThrows` — that check rejects (caught by the tick's `catch`);
`probe writeOk resp` — the check resolves `true` and the STATUS probe
runs with the given write outcome and pending response line. -/
inductive HbEvent where
  | devDisconnected
  | devCheckThrows
  | probe (writeOk : Bool) (resp : String)
deriving DecidableEq, Repr

/-- One tick of the `setInterval` body of `startHeartbeat` (327-355).
A detected low-level disconnect or a thrown check clears the connection
fields and stops the heartbeat at once.  The STATUS probe is
`sendCommand('status')`, whose Boolean result the tick ignores (its
`catch` is unreachable from a mere `false`), so a failed probe leaves the
state untouched. -/
def heartbeatTick (s : BLEState) (ev : HbEvent) : BLEState × List BLEAct :=
  if s.isConnected ∧ s.connectedDevice.isSome then
    match ev with
    | HbEvent.devDisconnected =>
      let (s1, a1) := stopHeartbeat { s with isConnected := false, connectedDevice := none }
      (s1, a1)
    | HbEvent.devCheckThrows =>
      let (s1, a1) := stopHeartbeat { s with isConnected := false, connectedDevice := none }
      (s1, a1)
    | HbEvent.probe writeOk resp =>
      let (_, acts) := sendCommandBLE s VehicleCommand.status ⟨writeOk, resp⟩
      (s, acts)
  else (s, [])

/-- A representative connected state. -/
def bleConnState : BLEState :=
  { isConnected := true, connectedDevice := some "dev-1"
    heartbeatOn := true, scanSubOn := false }

/-! ## HC-06 serial service (`HC06BluetoothServiceClass`)

The relevant mutable field is `connectedDevice` (a device record whose
`isConnected` flag the guards consult).  The listener array of the state
broadcaster is modelled separately below. -/

structure HCDevice where
  id : String
  name : String
  isConnected : Bool
deriving DecidableEq, Repr

structure HCState where
  connectedDevice : Option HCDevice
deriving DecidableEq, Repr

/-- Serial-side adapter actions. -/
inductive HCAct where
  | adapterDisconnect
  | notifyStatus (isConnected : Bool)
  | write (line : String)
  | read
deriving DecidableEq, Repr

/-- JS `s.endsWith(suffix)`, over the character lists. -/
def strEndsWith (s suffix : String) : Bool :=
  leadMatch s.data.reverse suffix.data.reverse

/-- `this.connectedDevice?.isConnected || false` (`isConnected()`, 376-378;
the same optional-chain guards `sendSerialCommand` and `disconnect`). -/
def hcIsConnected (s : HCState) : Bool :=
  match s.connectedDevice with
  | some d => d.isConnected
  | none => false

/-- `MAX_RETRY_ATTEMPTS` (line 35). -/
def MAX_RETRY_ATTEMPTS : Nat := 3

/-- `RETRY_BACKOFF_MS`: the literal `2000` of `this.delay(2000)` on line 225. -/
def RETRY_BACKOFF_MS : Nat := 2000

/-- How one `attemptConnection` (259-285) can end: `onConnected` fires
(`success`), `onDisconnected` fires and the promise resolves `false`
(`failFalse`), or `onError`/the 15 s timeout rejects (`failThrow`). -/
inductive AttemptOutcome where
  | success
  | failFalse
  | failThrow
deriving DecidableEq, Repr

/-- Result of the retry loop of `connectToCommandReceiver` (214-243):
how many attempts ran, the backoff delays performed between them (in
milliseconds, in order), and whether a connection was established. -/
structure ConnectRun where
  attempts : Nat
  delays : List Nat
  ok : Bool
deriving DecidableEq, Repr

/-- The `for (attempt = 1; attempt <= MAX_RETRY_ATTEMPTS; attempt++)`
loop.  `outcome n` is how the n-th `attemptConnection` ends.  `remaining`
counts the attempts still allowed including the current one, so the
`attempt < MAX_RETRY_ATTEMPTS` test guarding `delay(2000)` in the `catch`
is `remaining > 1`; a `failFalse` iteration has no `catch` and therefore
no delay. -/
def retryLoop (outcome : Nat → AttemptOutcome) : Nat → Nat → ConnectRun
  | _, 0 => { attempts := 0, delays := [], ok := false }
  | attempt, remaining + 1 =>
    match outcome attempt with
    | AttemptOutcome.success => { attempts := 1, delays := [], ok := true }
    | AttemptOutcome.failFalse =>
      let r := retryLoop outcome (attempt + 1) remaining
      { attempts := r.attempts + 1, delays := r.delays, ok := r.ok }
    | AttemptOutcome.failThrow =>
      if remaining = 0 then { attempts := 1, delays := [], ok := false }
      else
        let r := retryLoop outcome (attempt + 1) remaining
        { attempts := r.attempts + 1, delays := RETRY_BACKOFF_MS :: r.delays
          ok := r.ok }

/-- `connectToCommandReceiver`, from the point where the device was found:
the retry loop, then on success the connected notification, on exhaustion
the thrown-and-caught error notification with `ok = false`. -/
def connectToCommandReceiver (outcome : Nat → AttemptOutcome) :
    ConnectRun × List HCAct :=
  let r := retryLoop outcome 1 MAX_RETRY_ATTEMPTS
  (r, [HCAct.notifyStatus r.ok])

/-- `sendSerialCommand` (290-311): throws `'No hay dispositivo conectado'`
when no connected device, otherwise appends the newline terminator when
missing and writes the line; a write failure is rethrown after the
attempted write.  No service field is assigned anywhere in the function,
so the state is unchanged — in particular nothing records that a command
is outstanding. -/
def sendSerialCommand (s : HCState) (command : String) (writeOk : Bool) :
    Except String Bool × List HCAct :=
  if hcIsConnected s = false then
    (Except.error "No hay dispositivo conectado", [])
  else
    let formattedCommand :=
      if strEndsWith command "\n" then command else command ++ "\n"
    if writeOk then (Except.ok true, [HCAct.write formattedCommand])
    else (Except.error "write failed", [HCAct.write formattedCommand])

/-- Two `sendSerialCommand` invocations with no intervening read: exactly
the situation of a second command issued while the first is unresolved.
Because `sendSerialCommand` mutates nothing, the second call runs against
the same state. -/
def twoSequentialSends (s : HCState) (c1 c2 : String) (w1 w2 : Bool) :
    Except String Bool × Except String Bool × List HCAct :=
  let (r1, a1) := sendSerialCommand s c1 w1
  let (r2, a2) := sendSerialCommand s c2 w2
  (r1, r2, a1 ++ a2)

/-- `disconnect` (349-360): only acts when a device is marked connected;
`handleDisconnection` (clearing the device and notifying) runs only when
the adapter call `disconnectFromDeviceAsync` did not throw — a thrown
call is logged and the state survives untouched. -/
def hc06Disconnect (s : HCState) (adapterThrows : Bool) :
    HCState × List HCAct :=
  match s.connectedDevice with
  | some d =>
    if d.isConnected then
      if adapterThrows then (s, [HCAct.adapterDisconnect])
      else
        ({ connectedDevice := none },
          [HCAct.adapterDisconnect, HCAct.notifyStatus false])
    else (s, [])
  | none => (s, [])

/-- A representative connected serial state. -/
def hcConnState : HCState :=
  { connectedDevice := some { id := "00:11:22:33:44:55"
                              name := "Command-Receiver", isConnected := true } }

/-! ## State broadcaster (`onConnectionChange` / `notifyConnectionChange`)

A listener is a callback identity plus whether invoking it throws; the
status handed to every callback is the `ConnectionStatus` record. -/

structure ConnectionStatus where
  isConnected : Bool
  hasDevice : Bool
  error : Option String
deriving DecidableEq, Repr

structure Listener where
  id : Nat
  throwsOn : Bool
deriving DecidableEq, Repr

/-- Invoking one callback: it either returns or throws. -/
def invokeListener (cb : Listener) (st : ConnectionStatus) :
    Except String ConnectionStatus :=
  if cb.throwsOn then Except.error "Error en callback de conexión"
  else Except.ok st

/-- `notifyConnectionChange` (412-420): `forEach` over the listener array,
each call wrapped in `try { callback(status) } catch { log }`, so the walk
continues past a throwing callback and nothing propagates.  Returns the
invocations actually delivered, in order. -/
def notifyConnectionChange : List Listener → ConnectionStatus →
    Except String (List (Nat × ConnectionStatus))
  | [], _ => Except.ok []
  | cb :: rest, st =>
    let _caught := invokeListener cb st
    match notifyConnectionChange rest st with
    | Except.ok delivered => Except.ok ((cb.id, st) :: delivered)
    | Except.error e => Except.error e

/-- `onConnectionChange` (397-407): pushes the callback onto the array. -/
def onConnectionChange (listeners : List Listener) (cb : Listener) :
    List Listener :=
  listeners ++ [cb]

/-- The unsubscribe closure returned by `onConnectionChange`: `indexOf`
followed by `splice(index, 1)` when found — removal of the first
occurrence of the callback. -/
def unsubscribeFn (cb : Listener) (listeners : List Listener) :
    List Listener :=
  listeners.erase cb

/-! ## Response classification (`sendCommand` as documented, src/README.md 385-420)

The README's consolidated `sendCommand` reads one response line and
classifies `response.trim()` against the issued command. -/

/-- ASCII whitespace as JS `trim` sees it in this protocol (space, LF,
CR, TAB). -/
def isWsChar (c : Char) : Bool :=
  c = ' ' || c = '\n' || c = '\r' || c = '\t'

/-- JS `response.trim()` — strip leading and trailing whitespace. -/
def jsTrim (s : String) : String :=
  ⟨((s.data.dropWhile isWsChar).reverse.dropWhile isWsChar).reverse⟩

/-- The classification of the README's `sendCommand`: `status` succeeds
on `LOCKED` or `UNLOCKED` (`expectedResponses.status.includes`), `lock`
and `unlock` on strict equality with their `_OK` literal; any other
response yields `false`. -/
def readmeClassify (cmd : VehicleCommand) (response : String) : Bool :=
  match cmd with
  | VehicleCommand.status => ["LOCKED", "UNLOCKED"].contains (jsTrim response)
  | VehicleCommand.lock => jsTrim response == "LOCKED_OK"
  | VehicleCommand.unlock => jsTrim response == "UNLOCKED_OK"

/-- The success literals exactly as the spec words them: `LOCKED_OK` for
LOCK, `UNLOCKED_OK` for UNLOCK, `LOCKED` or `UNLOCKED` for STATUS. -/
def specSuccessLiteral (cmd : VehicleCommand) (response : String) : Prop :=
  (cmd = VehicleCommand.lock ∧ jsTrim response = "LOCKED_OK")
    ∨ (cmd = VehicleCommand.unlock ∧ jsTrim response = "UNLOCKED_OK")
    ∨ (cmd = VehicleCommand.status
        ∧ (jsTrim response = "LOCKED" ∨ jsTrim response = "UNLOCKED"))

/-! ## Lemmas about the matcher -/

/-- Signal-descending ordering used by the sortedness lemmas. -/
def rssiGE (a b : BTDevice) : Prop :=
  rssiKey b ≤ rssiKey a

theorem mem_insertDesc {a x : BTDevice} {l : List BTDevice} :
    a ∈ insertDesc x l ↔ a = x ∨ a ∈ l := by
  induction l with
  | nil => simp [insertDesc]
  | cons y ys ih =>
    simp only [insertDesc]
    by_cases h : rssiKey y ≤ rssiKey x
    · simp [h, List.mem_cons]
    · simp only [h, if_false, List.mem_cons, ih]
      tauto

theorem pairwise_insertDesc {x : BTDevice} {l : List BTDevice}
    (hl : List.Pairwise rssiGE l) :
    List.Pairwise rssiGE (insertDesc x l) := by
  induction l with
  | nil => simp [insertDesc, List.pairwise_singleton]
  | cons y ys ih =>
    rcases List.pairwise_cons.mp hl with ⟨hy, hys⟩
    simp only [insertDesc]
    by_cases h : rssiKey y ≤ rssiKey x
    · rw [if_pos h]
      refine List.pairwise_cons.mpr ⟨?_, hl⟩
      intro b hb
      rcases List.mem_cons.mp hb with rfl | hb2
      · exact h
      · exact le_trans (hy b hb2) h
    · rw [if_neg h]
      refine List.pairwise_cons.mpr ⟨?_, ih hys⟩
      intro b hb
      rcases mem_insertDesc.mp hb with rfl | hb2
      · exact le_of_not_le h
      · exact hy b hb2

theorem pairwise_sortDesc (l : List BTDevice) :
    List.Pairwise rssiGE (sortDesc l) := by
  induction l with
  | nil => simp [sortDesc]
  | cons x xs ih => exact pairwise_insertDesc ih

theorem mem_sortDesc {a : BTDevice} {l : List BTDevice} :
    a ∈ sortDesc l ↔ a ∈ l := by
  induction l with
  | nil => simp [sortDesc]
  | cons x xs ih =>
    simp only [sortDesc, mem_insertDesc, List.mem_cons, ih]

theorem firstPatternMatch_eq_some {d : BTDevice} :
    ∀ (pats : List String) (devices : List BTDevice),
      firstPatternMatch pats devices = some d →
      d ∈ devices ∧ ∃ p ∈ pats, nameMatches d p = true := by
  intro pats
  induction pats with
  | nil => intro devices h; simp [firstPatternMatch] at h
  | cons p ps ih =>
    intro devices h
    simp only [firstPatternMatch] at h
    cases e : devices.find? (fun dev => nameMatches dev p) with
    | some x =>
      rw [e] at h
      cases h
      refine ⟨List.mem_of_find?_eq_some e, p, List.mem_cons_self p ps, ?_⟩
      simpa using List.find?_some e
    | none =>
      rw [e] at h
      rcases ih devices h with ⟨hmem, q, hq, hnm⟩
      exact ⟨hmem, q, List.mem_cons_of_mem p hq, hnm⟩

theorem firstPatternMatch_isSome :
    ∀ (pats : List String) (devices : List BTDevice),
      (∃ p ∈ pats, ∃ d ∈ devices, nameMatches d p = true) →
      (firstPatternMatch pats devices).isSome = true := by
  intro pats
  induction pats with
  | nil => intro devices h; simp at h
  | cons p ps ih =>
    intro devices h
    simp only [firstPatternMatch]
    cases e : devices.find? (fun dev => nameMatches dev p) with
    | some x => simp
    | none =>
      rcases h with ⟨q, hq, d, hd, hnm⟩
      rcases List.mem_cons.mp hq with rfl | hq2
      · have := List.find?_eq_none.mp e d hd
        simp [hnm] at this
      · exact ih devices ⟨q, hq2, d, hd, hnm⟩

theorem firstPatternMatch_eq_none :
    ∀ (pats : List String) (devices : List BTDevice),
      (∀ p ∈ pats, ∀ d ∈ devices, nameMatches d p = false) →
      firstPatternMatch pats devices = none := by
  intro pats
  induction pats with
  | nil => intro devices _; simp [firstPatternMatch]
  | cons p ps ih =>
    intro devices h
    simp only [firstPatternMatch]
    have e : devices.find? (fun dev => nameMatches dev p) = none := by
      refine List.find?_eq_none.mpr ?_
      intro d hd
      simp [h p (List.mem_cons_self p ps) d hd]
    rw [e]
    exact ih devices fun q hq d hd => h q (List.mem_cons_of_mem p hq) d hd

/-- C1 (counterexample): the claim says that among several devices
matching a pattern the one with the strongest `signalStrength` is
selected.  `identifyVehicleDevice` instead returns the first matching
device in scan order for the first pattern with a match: with two
`VehicleControl` devices, the weaker one listed first (-90 dBm) is chosen
over the stronger one (-30 dBm). -/
theorem C1_counterexample :
    identifyVehicleDevice
        [{ name := some "VehicleControl_A", rssi := some (-90) },
         { name := some "VehicleControl_B", rssi := some (-30) }]
      = some { name := some "VehicleControl_A", rssi := some (-90) }
    ∧ matchesAnyPattern { name := some "VehicleControl_B", rssi := some (-30) } = true
    ∧ rssiKey { name := some "VehicleControl_A", rssi := some (-90) }
        < rssiKey { name := some "VehicleControl_B", rssi := some (-30) } := by
  refine ⟨by decide, by decide, by decide⟩

/-- C1 (amended): a device whose name matches a configured pattern is
selected in preference to every non-matching device regardless of signal
strength, in both matchers; but the two halves of the claimed behaviour
live in different matchers.  `autoConnect`'s selection
(`filterVehicleDevices` head) ranks pattern matches by signal strength
descending with an absent (or zero, falsy) rssi keyed as -100 — it has no
strong-signal fallback.  `identifyVehicleDevice` selects by pattern
priority and scan order, not signal strength, and only it falls back,
when no name matches, to the unique device with a present, non-zero rssi
above -60, reporting no match otherwise. -/
theorem C1_matcher_priority :
    (∀ (devices : List BTDevice) (d : BTDevice),
      autoConnectSelection devices = some d →
        matchesAnyPattern d = true
        ∧ ∀ e ∈ devices, matchesAnyPattern e = true → rssiKey e ≤ rssiKey d)
    ∧ (∀ devices : List BTDevice,
        (∃ d ∈ devices, matchesAnyPattern d = true) →
        ∃ d, identifyVehicleDevice devices = some d ∧ matchesAnyPattern d = true)
    ∧ (∀ devices : List BTDevice,
        (∀ d ∈ devices, matchesAnyPattern d = false) →
        identifyVehicleDevice devices =
          (if (devices.filter strongSignal).length = 1
           then (devices.filter strongSignal).head? else none)) := by
  refine ⟨?_, ?_, ?_⟩
  · intro devices d h
    unfold autoConnectSelection filterVehicleDevices at h
    cases e : sortDesc (devices.filter matchesAnyPattern) with
    | nil => rw [e] at h; simp at h
    | cons hd tl =>
      rw [e] at h
      simp only [List.head?] at h
      cases h
      have hmemd : d ∈ sortDesc (devices.filter matchesAnyPattern) := by
        rw [e]; exact List.mem_cons_self d tl
      have hfil : d ∈ devices.filter matchesAnyPattern := mem_sortDesc.mp hmemd
      refine ⟨(List.mem_filter.mp hfil).2, ?_⟩
      intro x hx hmx
      have hxfil : x ∈ devices.filter matchesAnyPattern :=
        List.mem_filter.mpr ⟨hx, hmx⟩
      have hxsort : x ∈ sortDesc (devices.filter matchesAnyPattern) :=
        mem_sortDesc.mpr hxfil
      rw [e] at hxsort
      rcases List.mem_cons.mp hxsort with rfl | hxtl
      · exact le_refl _
      · have hpw := pairwise_sortDesc (devices.filter matchesAnyPattern)
        rw [e] at hpw
        exact (List.pairwise_cons.mp hpw).1 x hxtl
  · intro devices hex
    rcases hex with ⟨d, hd, hmd⟩
    rcases List.any_eq_true.mp hmd with ⟨p, hp, hnm⟩
    have hsome : (firstPatternMatch VEHICLE_DEVICE_PATTERNS devices).isSome = true :=
      firstPatternMatch_isSome VEHICLE_DEVICE_PATTERNS devices
        ⟨p, hp, d, hd, by simpa using hnm⟩
    cases e : firstPatternMatch VEHICLE_DEVICE_PATTERNS devices with
    | none => rw [e] at hsome; simp at hsome
    | some d2 =>
      refine ⟨d2, ?_, ?_⟩
      · unfold identifyVehicleDevice
        rw [e]
      · rcases firstPatternMatch_eq_some VEHICLE_DEVICE_PATTERNS devices e with
          ⟨_, q, hq, hnm2⟩
        exact List.any_eq_true.mpr ⟨q, hq, by simpa using hnm2⟩
  · intro devices hall
    have hnone : firstPatternMatch VEHICLE_DEVICE_PATTERNS devices = none := by
      refine firstPatternMatch_eq_none VEHICLE_DEVICE_PATTERNS devices ?_
      intro p hp d hd
      have := hall d hd
      rcases List.any_eq_false.mp this p hp with h2
      simpa using h2
    unfold identifyVehicleDevice
    rw [hnone]

/-- Closed instantiation of `C1_matcher_priority`: the spec's own
scenario shape — a pattern-matching device (`HC-05`, -80 dBm) beats a
stronger non-matching device (`AirPods`, -30 dBm) in both matchers, and a
no-match scan with a unique strong-signal device falls back to it in
`identifyVehicleDevice`. -/
theorem C1_matcher_priority_witness :
    (matchesAnyPattern { name := some "HC-05", rssi := some (-80) } = true
      ∧ ∀ e ∈ [({ name := some "AirPods", rssi := some (-30) } : BTDevice),
               { name := some "HC-05", rssi := some (-80) }],
          matchesAnyPattern e = true →
          rssiKey e ≤ rssiKey { name := some "HC-05", rssi := some (-80) })
    ∧ (∃ d, identifyVehicleDevice
          [({ name := some "AirPods", rssi := some (-30) } : BTDevice),
           { name := some "HC-05", rssi := some (-80) }] = some d
        ∧ matchesAnyPattern d = true)
    ∧ identifyVehicleDevice
          [({ name := some "Tesla Unit", rssi := some (-30) } : BTDevice)] =
        (if ([({ name := some "Tesla Unit", rssi := some (-30) } : BTDevice)].filter
              strongSignal).length = 1
         then ([({ name := some "Tesla Unit", rssi := some (-30) } : BTDevice)].filter
              strongSignal).head? else none) := by
  refine ⟨?_, ?_, ?_⟩
  · exact C1_matcher_priority.1
      [{ name := some "AirPods", rssi := some (-30) },
       { name := some "HC-05", rssi := some (-80) }]
      { name := some "HC-05", rssi := some (-80) } (by decide)
  · exact C1_matcher_priority.2.1
      [{ name := some "AirPods", rssi := some (-30) },
       { name := some "HC-05", rssi := some (-80) }]
      ⟨{ name := some "HC-05", rssi := some (-80) }, by decide, by decide⟩
  · exact C1_matcher_priority.2.2
      [{ name := some "Tesla Unit", rssi := some (-30) }] (by decide)

/-! ## Lemmas about the retry loop -/

theorem retryLoop_attempts_le (outcome : Nat → AttemptOutcome) :
    ∀ (remaining attempt : Nat),
      (retryLoop outcome attempt remaining).attempts ≤ remaining := by
  intro remaining
  induction remaining with
  | zero => intro attempt; simp [retryLoop]
  | succ n ih =>
    intro attempt
    simp only [retryLoop]
    cases outcome attempt with
    | success => simp
    | failFalse =>
      simpa using Nat.succ_le_succ (ih (attempt + 1))
    | failThrow =>
      by_cases h : n = 0
      · simp [h]
      · simpa [h] using Nat.succ_le_succ (ih (attempt + 1))

theorem retryLoop_delays_backoff (outcome : Nat → AttemptOutcome) :
    ∀ (remaining attempt : Nat),
      ∀ d ∈ (retryLoop outcome attempt remaining).delays, d = RETRY_BACKOFF_MS := by
  intro remaining
  induction remaining with
  | zero => intro attempt d hd; simp [retryLoop] at hd
  | succ n ih =>
    intro attempt d hd
    simp only [retryLoop] at hd
    cases hc : outcome attempt with
    | success => simp [hc] at hd
    | failFalse =>
      simp only [hc] at hd
      exact ih (attempt + 1) d hd
    | failThrow =>
      by_cases h : n = 0
      · simp [hc, h] at hd
      · simp only [hc, h, if_false] at hd
        rcases List.mem_cons.mp hd with rfl | hd2
        · rfl
        · exact ih (attempt + 1) d hd2

theorem retryLoop_all_fail (outcome : Nat → AttemptOutcome) :
    ∀ (remaining attempt : Nat),
      (∀ i, attempt ≤ i → i < attempt + remaining → outcome i ≠ AttemptOutcome.success) →
      (retryLoop outcome attempt remaining).ok = false
        ∧ (retryLoop outcome attempt remaining).attempts = remaining := by
  intro remaining
  induction remaining with
  | zero => intro attempt _; simp [retryLoop]
  | succ n ih =>
    intro attempt hall
    have hcur : outcome attempt ≠ AttemptOutcome.success :=
      hall attempt (le_refl attempt) (by omega)
    have hrest : ∀ i, attempt + 1 ≤ i → i < attempt + 1 + n →
        outcome i ≠ AttemptOutcome.success := by
      intro i h1 h2
      exact hall i (by omega) (by omega)
    simp only [retryLoop]
    cases hc : outcome attempt with
    | success => exact absurd hc hcur
    | failFalse =>
      rcases ih (attempt + 1) hrest with ⟨h1, h2⟩
      simp [h1, h2]
    | failThrow =>
      by_cases h : n = 0
      · simp [h]
      · rcases ih (attempt + 1) hrest with ⟨h1, h2⟩
        simp [h, h1, h2]

theorem retryLoop_congr (o1 o2 : Nat → AttemptOutcome) :
    ∀ (remaining attempt : Nat),
      (∀ i, attempt ≤ i → i < attempt + remaining → o1 i = o2 i) →
      retryLoop o1 attempt remaining = retryLoop o2 attempt remaining := by
  intro remaining
  induction remaining with
  | zero => intro attempt _; simp [retryLoop]
  | succ n ih =>
    intro attempt hag
    have hcur : o1 attempt = o2 attempt :=
      hag attempt (le_refl attempt) (by omega)
    have hrest : ∀ i, attempt + 1 ≤ i → i < attempt + 1 + n → o1 i = o2 i := by
      intro i h1 h2
      exact hag i (by omega) (by omega)
    simp only [retryLoop, hcur]
    cases o2 attempt with
    | success => rfl
    | failFalse => rw [ih (attempt + 1) hrest]
    | failThrow =>
      by_cases h : n = 0
      · simp [h]
      · simp [h, ih (attempt + 1) hrest]

/-- C2 (counterexample): the claim says a fixed 2-second backoff is
waited between consecutive failed attempts.  An attempt that fails by the
`onDisconnected` callback resolving `false` is not an exception, so the
`catch` containing `delay(2000)` never runs: three such consecutive
failures make three attempts with no backoff at all. -/
theorem C2_counterexample :
    connectToCommandReceiver (fun _ => AttemptOutcome.failFalse)
      = ({ attempts := 3, delays := [], ok := false },
         [HCAct.notifyStatus false]) := by
  decide

/-- C2 (amended): the connect loop makes at most `MAX_RETRY_ATTEMPTS = 3`
attempts and its result depends only on the outcomes of attempts 1-3 (no
further attempt is consulted); every backoff it performs is the fixed
2000 ms one, and a 2 s backoff separates consecutive *rejected* (thrown)
attempts, while an attempt failing via the disconnect callback retries
immediately; when all three attempts fail the run reports failure
(`ok = false`, the caught `ConnectExhausted`-style error notification)
after exactly 3 attempts. -/
theorem C2_retry_budget :
    (∀ outcome : Nat → AttemptOutcome,
      (connectToCommandReceiver outcome).1.attempts ≤ MAX_RETRY_ATTEMPTS)
    ∧ (∀ outcome : Nat → AttemptOutcome,
        ∀ d ∈ (connectToCommandReceiver outcome).1.delays, d = RETRY_BACKOFF_MS)
    ∧ (∀ outcome : Nat → AttemptOutcome,
        (∀ i, 1 ≤ i → i ≤ 3 → outcome i ≠ AttemptOutcome.success) →
        (connectToCommandReceiver outcome).1.ok = false
          ∧ (connectToCommandReceiver outcome).1.attempts = 3
          ∧ (connectToCommandReceiver outcome).2 = [HCAct.notifyStatus false])
    ∧ (∀ o1 o2 : Nat → AttemptOutcome,
        (∀ i, 1 ≤ i → i ≤ 3 → o1 i = o2 i) →
        connectToCommandReceiver o1 = connectToCommandReceiver o2) := by
  refine ⟨?_, ?_, ?_, ?_⟩
  · intro outcome
    exact retryLoop_attempts_le outcome MAX_RETRY_ATTEMPTS 1
  · intro outcome d hd
    exact retryLoop_delays_backoff outcome MAX_RETRY_ATTEMPTS 1 d hd
  · intro outcome h
    have h2 : ∀ i, 1 ≤ i → i < 1 + MAX_RETRY_ATTEMPTS →
        outcome i ≠ AttemptOutcome.success := by
      intro i h1 hlt
      have e : MAX_RETRY_ATTEMPTS = 3 := rfl
      rw [e] at hlt
      exact h i h1 (by omega)
    rcases retryLoop_all_fail outcome MAX_RETRY_ATTEMPTS 1 h2 with ⟨hok, hat⟩
    refine ⟨hok, ?_, ?_⟩
    · simpa [MAX_RETRY_ATTEMPTS] using hat
    · simp [connectToCommandReceiver, hok]
  · intro o1 o2 h
    have h2 : ∀ i, 1 ≤ i → i < 1 + MAX_RETRY_ATTEMPTS → o1 i = o2 i := by
      intro i h1 hlt
      have e : MAX_RETRY_ATTEMPTS = 3 := rfl
      rw [e] at hlt
      exact h i h1 (by omega)
    simp [connectToCommandReceiver, retryLoop_congr o1 o2 MAX_RETRY_ATTEMPTS 1 h2]

/-- Closed instantiation of `C2_retry_budget`: three thrown failures give
a failed run of exactly 3 attempts with the failure notification. -/
theorem C2_retry_budget_witness :
    (connectToCommandReceiver (fun _ => AttemptOutcome.failThrow)).1.ok = false
    ∧ (connectToCommandReceiver (fun _ => AttemptOutcome.failThrow)).1.attempts = 3
    ∧ (connectToCommandReceiver (fun _ => AttemptOutcome.failThrow)).2
        = [HCAct.notifyStatus false] :=
  C2_retry_budget.2.2.1 (fun _ => AttemptOutcome.failThrow)
    (fun _ _ _ hcontra => AttemptOutcome.noConfusion hcontra)

/-- C3 (counterexample): the claim says a single probe failure never
disconnects and only two consecutive probe failures force the session out
of Connected.  In the code a STATUS probe whose write fails never
disconnects — even two consecutive failed probes leave the session
Connected — while one single detected low-level disconnect forces the
session out of Connected immediately. -/
theorem C3_counterexample :
    (heartbeatTick (heartbeatTick bleConnState (HbEvent.probe false "")).1
        (HbEvent.probe false "")).1.isConnected = true
    ∧ (heartbeatTick bleConnState HbEvent.devDisconnected).1.isConnected = false := by
  refine ⟨by decide, by decide⟩

/-- C3 (amended): on a Connected session a heartbeat tick that detects a
low-level disconnect, or whose connectivity check throws, immediately
clears the connection and stops the heartbeat (one failure suffices,
there is no consecutive-failure counter and no subscriber notification in
this service); a tick whose STATUS probe merely fails leaves the state
untouched; the probe interval is 15 s. -/
theorem C3_heartbeat_behavior :
    (∀ s : BLEState, s.isConnected = true → s.connectedDevice.isSome = true →
      ((heartbeatTick s HbEvent.devDisconnected).1.isConnected = false
        ∧ (heartbeatTick s HbEvent.devDisconnected).1.connectedDevice = none
        ∧ (heartbeatTick s HbEvent.devDisconnected).1.heartbeatOn = false)
      ∧ ((heartbeatTick s HbEvent.devCheckThrows).1.isConnected = false
        ∧ (heartbeatTick s HbEvent.devCheckThrows).1.heartbeatOn = false)
      ∧ (∀ (w : Bool) (resp : String),
          (heartbeatTick s (HbEvent.probe w resp)).1 = s))
    ∧ HEARTBEAT_INTERVAL = 15000 := by
  refine ⟨?_, rfl⟩
  intro s h1 h2
  obtain ⟨ic, cd, hb, sc⟩ := s
  simp only at h1
  cases cd with
  | none => simp at h2
  | some id =>
    subst h1
    cases hb <;>
      refine ⟨⟨by simp [heartbeatTick, stopHeartbeat], by simp [heartbeatTick, stopHeartbeat],
                by simp [heartbeatTick, stopHeartbeat]⟩,
              ⟨by simp [heartbeatTick, stopHeartbeat], by simp [heartbeatTick, stopHeartbeat]⟩,
              ?_⟩ <;>
      · intro w resp
        simp [heartbeatTick, sendCommandBLE]

/-- Closed instantiation of `C3_heartbeat_behavior` at the representative
connected state. -/
theorem C3_heartbeat_behavior_witness :
    ((heartbeatTick bleConnState HbEvent.devDisconnected).1.isConnected = false
      ∧ (heartbeatTick bleConnState HbEvent.devDisconnected).1.connectedDevice = none
      ∧ (heartbeatTick bleConnState HbEvent.devDisconnected).1.heartbeatOn = false)
    ∧ ((heartbeatTick bleConnState HbEvent.devCheckThrows).1.isConnected = false
      ∧ (heartbeatTick bleConnState HbEvent.devCheckThrows).1.heartbeatOn = false)
    ∧ (∀ (w : Bool) (resp : String),
        (heartbeatTick bleConnState (HbEvent.probe w resp)).1 = bleConnState) :=
  C3_heartbeat_behavior.1 bleConnState (by decide) (by decide)

/-- C4 (counterexample): from the idle service, a successful adapter
connect plus service discovery puts the service in the connected state
with result `true`, while the performed adapter actions contain no
validation round-trip and no persistence of the device identifier —
Connected is entered without any successful validation, refuting the
claimed reachable-state invariant. -/
theorem C4_counterexample :
    (connectToDevice bleIdle "dev-1" false true true).1.isConnected = true
    ∧ (connectToDevice bleIdle "dev-1" false true true).2.2 = true
    ∧ (connectToDevice bleIdle "dev-1" false true true).2.1
        = [BLEAct.adapterConnect, BLEAct.discoverServices,
           BLEAct.registerDisconnectHandler, BLEAct.startHeartbeatTimer]
    ∧ BLEAct.validatePing ∉ (connectToDevice bleIdle "dev-1" false true true).2.1
    ∧ BLEAct.persistRemembered "dev-1"
        ∉ (connectToDevice bleIdle "dev-1" false true true).2.1 := by
  refine ⟨by decide, by decide, by decide, by decide, by decide⟩

/-- C4 (amended): on every path of `connectToDevice` the action trace
contains no identity/readiness validation and no persistence of a
remembered device (the `validateArduinoDevice` stub is never invoked by
any connect path), and whenever the adapter connect and the service
discovery succeed the call reports `true` with the service marked
connected. -/
theorem C4_connect_no_validation :
    ∀ (s : BLEState) (devId : String) (cancelThrows connectOk discoverOk : Bool),
      BLEAct.validatePing
          ∉ (connectToDevice s devId cancelThrows connectOk discoverOk).2.1
      ∧ (∀ rid, BLEAct.persistRemembered rid
          ∉ (connectToDevice s devId cancelThrows connectOk discoverOk).2.1)
      ∧ (connectOk = true → discoverOk = true →
          (connectToDevice s devId cancelThrows connectOk discoverOk).1.isConnected = true
          ∧ (connectToDevice s devId cancelThrows connectOk discoverOk).2.2 = true) := by
  intro s devId cancelThrows connectOk discoverOk
  obtain ⟨ic, cd, hb, sc⟩ := s
  by_cases hshort : cd = some devId ∧ ic = true
  · rcases hshort with ⟨rfl, rfl⟩
    refine ⟨?_, ?_, ?_⟩ <;>
      simp [connectToDevice]
  · cases ic <;> cases hb <;> cases sc <;> cases cancelThrows <;>
      cases connectOk <;> cases discoverOk <;>
      cases cd <;>
      simp_all [connectToDevice, bleDisconnect, stopHeartbeat]

/-- Closed instantiation of `C4_connect_no_validation` (fresh idle
service, fully successful adapter). -/
theorem C4_connect_no_validation_witness :
    BLEAct.validatePing ∉ (connectToDevice bleIdle "dev-1" false true true).2.1
    ∧ (∀ rid, BLEAct.persistRemembered rid
        ∉ (connectToDevice bleIdle "dev-1" false true true).2.1)
    ∧ ((connectToDevice bleIdle "dev-1" false true true).1.isConnected = true
        ∧ (connectToDevice bleIdle "dev-1" false true true).2.2 = true) :=
  ⟨(C4_connect_no_validation bleIdle "dev-1" false true true).1,
   (C4_connect_no_validation bleIdle "dev-1" false true true).2.1,
   (C4_connect_no_validation bleIdle "dev-1" false true true).2.2 rfl rfl⟩

/-- C5 (counterexample): the claim says `sendCommand` reports success
exactly when the trimmed response equals the expected literal.  The BLE
`sendCommand` resolves `true` as soon as the characteristic write
succeeds and performs no read at all: with `UNKNOWN_COMMAND` pending on
the wire (not a success literal for LOCK) the call still resolves
`Except.ok true`. -/
theorem C5_counterexample :
    (sendCommandBLE bleConnState VehicleCommand.lock
        { writeOk := true, responseLine := "UNKNOWN_COMMAND" }).1
      = Except.ok true
    ∧ readmeClassify VehicleCommand.lock "UNKNOWN_COMMAND" = false
    ∧ BLEAct.readChar ∉ (sendCommandBLE bleConnState VehicleCommand.lock
        { writeOk := true, responseLine := "UNKNOWN_COMMAND" }).2 := by
  refine ⟨by rfl, by decide, by decide⟩

/-- C5 (amended): the response classification exists only in the
documented (README) `sendCommand`, where it matches the claimed literals
exactly — success iff the trimmed response is `LOCKED_OK` for LOCK,
`UNLOCKED_OK` for UNLOCK, `LOCKED` or `UNLOCKED` for STATUS; the
implemented BLE `sendCommand` never reads a response and its result is
independent of whatever the device answers. -/
theorem C5_response_classification :
    (∀ (cmd : VehicleCommand) (response : String),
      readmeClassify cmd response = true ↔ specSuccessLiteral cmd response)
    ∧ (∀ (s : BLEState) (cmd : VehicleCommand) (w : Bool) (r1 r2 : String),
        sendCommandBLE s cmd { writeOk := w, responseLine := r1 }
          = sendCommandBLE s cmd { writeOk := w, responseLine := r2 })
    ∧ (∀ (s : BLEState) (cmd : VehicleCommand) (env : BLEEnv),
        BLEAct.readChar ∉ (sendCommandBLE s cmd env).2) := by
  refine ⟨?_, ?_, ?_⟩
  · intro cmd response
    cases cmd <;>
      simp [readmeClassify, specSuccessLiteral, List.elem_eq_mem, List.contains_eq_any_beq]
  · intro s cmd w r1 r2
    rfl
  · intro s cmd env
    by_cases h : s.isConnected = false ∨ s.connectedDevice = none
    · simp [sendCommandBLE, h]
    · cases hw : env.writeOk <;> simp [sendCommandBLE, h, hw]

/-- C6 (counterexample): a second `sendSerialCommand` issued while the
first command's response has not been read succeeds and writes to the
channel a second time — no BusyError, no mutual exclusion. -/
theorem C6_counterexample :
    twoSequentialSends hcConnState "LOCK" "STATUS" true true
      = (Except.ok true, Except.ok true,
         [HCAct.write "LOCK\n", HCAct.write "STATUS\n"]) := by
  rfl

/-- C6 (amended): `sendSerialCommand` tracks no outstanding request; its
only rejection (with no write) is the not-connected guard, and two
invocations with no intervening read on a connected session both succeed
and write the channel twice. -/
theorem C6_no_busy_rejection :
    (∀ (s : HCState) (c1 c2 : String),
      hcIsConnected s = true →
        (twoSequentialSends s c1 c2 true true).1 = Except.ok true
        ∧ (twoSequentialSends s c1 c2 true true).2.1 = Except.ok true
        ∧ (twoSequentialSends s c1 c2 true true).2.2
            = [HCAct.write (if strEndsWith c1 "\n" then c1 else c1 ++ "\n"),
               HCAct.write (if strEndsWith c2 "\n" then c2 else c2 ++ "\n")])
    ∧ (∀ (s : HCState) (c : String) (w : Bool),
        (sendSerialCommand s c w).2 = [] ↔ hcIsConnected s = false) := by
  constructor
  · intro s c1 c2 h
    have h2 : ¬ hcIsConnected s = false := by simp [h]
    refine ⟨?_, ?_, ?_⟩ <;>
      simp [twoSequentialSends, sendSerialCommand, h2]
  · intro s c w
    by_cases h : hcIsConnected s = false
    · simp [sendSerialCommand, h]
    · cases hw : w <;> simp [sendSerialCommand, h, hw]

/-- Closed instantiation of `C6_no_busy_rejection` on the connected
serial state. -/
theorem C6_no_busy_rejection_witness :
    (twoSequentialSends hcConnState "LOCK" "STATUS" true true).1 = Except.ok true
    ∧ (twoSequentialSends hcConnState "LOCK" "STATUS" true true).2.1 = Except.ok true
    ∧ (twoSequentialSends hcConnState "LOCK" "STATUS" true true).2.2
        = [HCAct.write (if strEndsWith "LOCK" "\n" then "LOCK" else "LOCK" ++ "\n"),
           HCAct.write (if strEndsWith "STATUS" "\n" then "STATUS" else "STATUS" ++ "\n")] :=
  C6_no_busy_rejection.1 hcConnState "LOCK" "STATUS" (by decide)

/-- C7: with no connected device, both `sendCommand` variants throw their
not-connected error before touching the channel: no write action is
performed. -/
theorem C7_not_connected_rejection :
    (∀ (s : BLEState) (cmd : VehicleCommand) (env : BLEEnv),
      s.isConnected = false ∨ s.connectedDevice = none →
      sendCommandBLE s cmd env = (Except.error "No hay conexión Bluetooth", []))
    ∧ (∀ (s : HCState) (c : String) (w : Bool),
        hcIsConnected s = false →
        sendSerialCommand s c w = (Except.error "No hay dispositivo conectado", [])) := by
  constructor
  · intro s cmd env h
    simp [sendCommandBLE, h]
  · intro s c w h
    simp [sendSerialCommand, h]

/-- Closed instantiation of `C7_not_connected_rejection` on the idle
states of both services. -/
theorem C7_not_connected_rejection_witness :
    sendCommandBLE bleIdle VehicleCommand.lock { writeOk := true, responseLine := "" }
      = (Except.error "No hay conexión Bluetooth", [])
    ∧ sendSerialCommand { connectedDevice := none } "LOCK" true
      = (Except.error "No hay dispositivo conectado", []) :=
  ⟨C7_not_connected_rejection.1 bleIdle VehicleCommand.lock
      { writeOk := true, responseLine := "" } (Or.inl rfl),
   C7_not_connected_rejection.2 { connectedDevice := none } "LOCK" true rfl⟩

/-- After a `disconnect` whose adapter cancel did not throw, the BLE
service is exactly the canonical idle state. -/
theorem bleDisconnect_noThrow_idle (s : BLEState) :
    (bleDisconnect s false).1 = bleIdle := by
  obtain ⟨ic, cd, hb, sc⟩ := s
  cases cd <;> cases hb <;> cases sc <;>
    simp [bleDisconnect, stopHeartbeat, bleIdle]

/-- C8 (counterexample): the claim says that after any `disconnect` call
the connected flag is false and the device reference cleared.  In the
HC-06 service a `disconnect` whose adapter call throws is caught before
`handleDisconnection`, leaving the device still marked connected. -/
theorem C8_counterexample :
    hc06Disconnect hcConnState true = (hcConnState, [HCAct.adapterDisconnect])
    ∧ hcIsConnected (hc06Disconnect hcConnState true).1 = true := by
  refine ⟨by decide, by decide⟩

/-- C8 (amended): `disconnect` on an Idle BLE service is a no-op; after
any BLE `disconnect` (even one whose adapter cancel throws) the connected
flag is false, the device reference cleared and the keep-alive timer
cancelled, and when the cancel does not throw a second `disconnect` is an
exact no-op (disconnect ∘ disconnect = disconnect).  The HC-06
`disconnect` gives the same guarantees only when its adapter call
succeeds: then the flag ends false and a repeat call is a no-op. -/
theorem C8_disconnect_idempotent :
    (∀ (s : BLEState) (e : Bool),
      s.isConnected = false → s.connectedDevice = none →
      s.heartbeatOn = false → s.scanSubOn = false →
      bleDisconnect s e = (s, []))
    ∧ (∀ (s : BLEState) (e : Bool),
        (bleDisconnect s e).1.isConnected = false
        ∧ (bleDisconnect s e).1.connectedDevice = none
        ∧ (bleDisconnect s e).1.heartbeatOn = false)
    ∧ (∀ (s : BLEState) (e2 : Bool),
        bleDisconnect (bleDisconnect s false).1 e2 = ((bleDisconnect s false).1, []))
    ∧ (∀ s : HCState,
        hcIsConnected (hc06Disconnect s false).1 = false
        ∧ hc06Disconnect (hc06Disconnect s false).1 false
            = ((hc06Disconnect s false).1, [])) := by
  have hidle : ∀ e : Bool, bleDisconnect bleIdle e = (bleIdle, []) := by
    intro e
    simp [bleDisconnect, stopHeartbeat, bleIdle]
  refine ⟨?_, ?_, ?_, ?_⟩
  · intro s e h1 h2 h3 h4
    obtain ⟨ic, cd, hb, sc⟩ := s
    simp only at h1 h2 h3 h4
    subst h1; subst h2; subst h3; subst h4
    exact hidle e
  · intro s e
    obtain ⟨ic, cd, hb, sc⟩ := s
    cases cd <;> cases hb <;> cases sc <;> cases e <;>
      simp [bleDisconnect, stopHeartbeat]
  · intro s e2
    rw [bleDisconnect_noThrow_idle s]
    exact hidle e2
  · intro s
    obtain ⟨cd⟩ := s
    cases cd with
    | none => simp [hc06Disconnect, hcIsConnected]
    | some d =>
      obtain ⟨id, nm, b⟩ := d
      cases b <;> simp [hc06Disconnect, hcIsConnected]

/-- Closed instantiation of `C8_disconnect_idempotent`: disconnecting the
idle BLE service changes nothing. -/
theorem C8_disconnect_idempotent_witness :
    bleDisconnect bleIdle true = (bleIdle, []) :=
  C8_disconnect_idempotent.1 bleIdle true rfl rfl rfl rfl

/-- C9: every connection-state change is delivered to every subscribed
callback synchronously in subscription order with the new status, a
throwing callback neither stops delivery to the rest nor propagates to
the notifier's caller, and the unsubscribe closure removes exactly one
occurrence of its callback (the resulting list is a permutation of the
list before subscribing, and equal to it when the callback was not
already subscribed). -/
theorem C9_broadcaster :
    (∀ (listeners : List Listener) (st : ConnectionStatus),
      notifyConnectionChange listeners st
        = Except.ok (listeners.map (fun cb => (cb.id, st))))
    ∧ (∀ (listeners : List Listener) (cb : Listener),
        (unsubscribeFn cb (onConnectionChange listeners cb)).Perm listeners
        ∧ (cb ∉ listeners →
            unsubscribeFn cb (onConnectionChange listeners cb) = listeners)) := by
  constructor
  · intro listeners st
    induction listeners with
    | nil => rfl
    | cons cb rest ih =>
      simp [notifyConnectionChange, ih]
  · intro listeners cb
    constructor
    · unfold unsubscribeFn onConnectionChange
      have h1 : (listeners ++ [cb]).Perm (cb :: listeners) :=
        List.perm_append_singleton cb listeners
      have h2 := h1.erase cb
      rw [List.erase_cons_head] at h2
      exact h2
    · intro hnot
      unfold unsubscribeFn onConnectionChange
      rw [List.erase_append_right _ hnot, List.erase_cons_head, List.append_nil]

/-- Closed instantiation of `C9_broadcaster`'s unsubscribe clause for a
fresh callback. -/
theorem C9_broadcaster_witness :
    unsubscribeFn { id := 7, throwsOn := false }
        (onConnectionChange [{ id := 3, throwsOn := true }]
          { id := 7, throwsOn := false })
      = [{ id := 3, throwsOn := true }] :=
  (C9_broadcaster.2 [{ id := 3, throwsOn := true }]
      { id := 7, throwsOn := false }).2 (by decide)

/-- C10: the claim says `stringToBase64` produces standard base64
including correct `=` padding, so that every command payload is the
standard encoding of its literal.  The helper is correct only on inputs
whose length is a multiple of 3 (UNLOCK, STATUS): because the index is
advanced only inside the bounds checks, the padding conditions are always
true and the `'='` branches are dead, so `LOCK` (length 4) encodes to
`TE9DSwAA` instead of the standard `TE9DSw==`, and that non-standard
payload is exactly what `sendCommand` writes to the RX characteristic. -/
theorem C10_base64_bug :
    stringToBase64 (strCodes "LOCK") = "TE9DSwAA"
    ∧ base64Spec (strCodes "LOCK") = "TE9DSw=="
    ∧ stringToBase64 (strCodes "LOCK") ≠ base64Spec (strCodes "LOCK")
    ∧ stringToBase64 (strCodes "UNLOCK") = base64Spec (strCodes "UNLOCK")
    ∧ stringToBase64 (strCodes "STATUS") = base64Spec (strCodes "STATUS")
    ∧ (sendCommandBLE bleConnState VehicleCommand.lock
        { writeOk := true, responseLine := "" }).2
        = [BLEAct.writeChar "TE9DSwAA"] := by
  refine ⟨by decide, by decide, by decide, by decide, by decide, by decide⟩
